import Mathlib

/-!
Verification development for the vencord-plugins repository.

The development shallowly embeds the state-bearing operations of three plugins:

* `MessageLoggerv2` (src/MessageLoggerv2/storage.ts and the plugin body):
  the per-user message log store (`MessageStorage.addMessage`,
  `MessageStorage.importData`), the message logging filter (`logMessage`) and
  the deletion handler (`handleDelete`).
* `VoiceChannelLogger`: the persisted voice-event log (`saveLogEntry`),
  session-duration accounting (the `userSessions` map updated inside
  `VOICE_STATE_UPDATES`) and the toast-suppression decision
  (`shouldSuppressToast` inside the handler together with `logVoiceEvent`).
* `AutoMuter`: the per-user audio-level buffer and auto-mute logic
  (`monitorAudioLevel`), the periodic cleanup (`cleanupExpiredMutes`) and the
  scheduled auto-unmute callback body.

Modelling conventions: JavaScript `Map` objects become association lists in
insertion order (`JsMap` below); `Date.now()` and other host-supplied values
become explicit parameters; JavaScript numbers are modelled as `Int` (times)
or `Rat` (audio levels and fractional slider settings) with exact arithmetic;
host API calls that only produce side effects outside the repository are
dropped, and the data they would receive is returned instead where a claim
needs it.
-/

namespace VencordPlugins

/-- Association-list model of a JavaScript `Map` with string keys, kept in
insertion order. `get` models `Map.prototype.get`: the value of the first
entry whose key matches, or `none`. -/
def JsMap.get {α : Type} (k : String) (m : List (String × α)) : Option α :=
  (m.find? (fun p => p.1 == k)).map (fun p => p.2)

/-- Model of `Map.prototype.set`: overwrite the entry in place when the key is
present, otherwise append a new entry at the end. -/
def JsMap.set {α : Type} (k : String) (v : α) (m : List (String × α)) :
    List (String × α) :=
  if m.any (fun p => p.1 == k) then
    m.map (fun p => if p.1 == k then (k, v) else p)
  else m ++ [(k, v)]

/-- Model of `Map.prototype.delete`. -/
def JsMap.delete {α : Type} (k : String) (m : List (String × α)) :
    List (String × α) :=
  m.filter (fun p => !(p.1 == k))

/-- Model of `Array.prototype.findIndex`, returning `none` instead of `-1`
when no element satisfies the predicate. -/
def findIndex {α : Type} (p : α → Bool) : List α → Option Nat
  | [] => none
  | x :: xs => if p x then some 0 else (findIndex p xs).map (fun i => i + 1)

namespace MessageLoggerv2

/-- Attachment object as far as the plugin inspects it
(`a.content_type?.startsWith(...)` in src/unnamed/part_000). -/
structure Attachment where
  content_type : Option String
deriving DecidableEq, Repr

/-- Embed object as far as the plugin inspects it: the `logImages` filter
tests `e.image || e.thumbnail` for presence, modelled as booleans. -/
structure EmbedData where
  image : Bool
  thumbnail : Bool
deriving DecidableEq, Repr

/-- Sticker item; the plugin only counts them. -/
structure Sticker where
  id : String
deriving DecidableEq, Repr

/-- Nested `author` record of `LoggedMessage` (src/MessageLoggerv2/storage.ts
lines 11-16). -/
structure LoggedAuthor where
  id : String
  username : String
  globalName : Option String
  avatar : Option String
deriving DecidableEq, Repr

/-- `LoggedMessage` interface (src/MessageLoggerv2/storage.ts lines 7-25). -/
structure LoggedMessage where
  id : String
  content : String
  timestamp : String
  author : LoggedAuthor
  attachments : List Attachment
  embeds : List EmbedData
  sticker_items : List Sticker
  channel_id : String
  guild_id : Option String
  edited_timestamp : Option String
  deleted : Bool
  deleted_timestamp : Option String
deriving DecidableEq, Repr

/-- `UserMessageLog` interface (src/MessageLoggerv2/storage.ts lines 27-31). -/
structure UserMessageLog where
  userId : String
  messages : List LoggedMessage
  lastUpdated : Int
deriving DecidableEq, Repr

/-- The private `storage : Map<string, UserMessageLog>` of `MessageStorage`,
modelled as a function map (the claims about typed storage never inspect map
iteration order). -/
def Storage : Type := String → Option UserMessageLog

/-- Freshly constructed `MessageStorage` with nothing in local storage. -/
def emptyStorage : Storage := fun _ => none

/-- The private constant `maxMessagesPerUser = 1000`
(src/MessageLoggerv2/storage.ts line 35). -/
def maxMessagesPerUser : Nat := 1000

/-- Lines 53-59 of `MessageStorage.addMessage`: replace the entry with the
same id in place when one exists (`findIndex` + assignment), otherwise
`unshift` the message to the beginning. -/
def insertOrReplace (messages : List LoggedMessage) (message : LoggedMessage) :
    List LoggedMessage :=
  match findIndex (fun m => m.id == message.id) messages with
  | some i => messages.set i message
  | none => message :: messages

/-- Lines 53-64 of `MessageStorage.addMessage`: the insert-or-replace step
followed by the per-user limit (`slice(0, maxMessagesPerUser)` when the
length exceeds the limit). -/
def addMessageList (messages : List LoggedMessage) (message : LoggedMessage) :
    List LoggedMessage :=
  let withNew := insertOrReplace messages message
  if maxMessagesPerUser < withNew.length then withNew.take maxMessagesPerUser
  else withNew

/-- `MessageStorage.addMessage` (src/MessageLoggerv2/storage.ts lines 41-68).
`now` models `Date.now()`; the trailing `saveToLocalStorage` call only
mirrors the in-memory map and is dropped. -/
def addMessage (storage : Storage) (userId : String) (message : LoggedMessage)
    (now : Int) : Storage :=
  let userLog := (storage userId).getD
    { userId := userId, messages := [], lastUpdated := now }
  let updated : UserMessageLog :=
    { userLog with messages := addMessageList userLog.messages message,
                   lastUpdated := now }
  fun u => if u = userId then some updated else storage u

/-- `MessageStorage.getMessages` (src/MessageLoggerv2/storage.ts lines 70-73). -/
def getMessages (storage : Storage) (userId : String) : List LoggedMessage :=
  match storage userId with
  | some userLog => userLog.messages
  | none => []

/-- `MessageStorage.getMessageCount` (src/MessageLoggerv2/storage.ts
lines 108-111). -/
def getMessageCount (storage : Storage) (userId : String) : Nat :=
  match storage userId with
  | some userLog => userLog.messages.length
  | none => 0

/-- Run a sequence of `addMessage` calls, each with its own user id, message
and `Date.now()` value. -/
def applyAdds (ops : List (String × LoggedMessage × Int)) (storage : Storage) :
    Storage :=
  match ops with
  | [] => storage
  | (u, m, t) :: rest => applyAdds rest (addMessage storage u m t)

/-- JSON values, as produced by the host `JSON.parse`. Numbers are modelled
exactly; none of the verified behaviour depends on numeric values. -/
inductive Json where
  | null : Json
  | bool (b : Bool) : Json
  | num (n : Int) : Json
  | str (s : String) : Json
  | arr (elems : List Json) : Json
  | obj (fields : List (String × Json)) : Json

/-- Property lookup on a parsed JSON object (`JSON.parse` already collapses
duplicate keys, so fields are unique and first match suffices). -/
def jsonGetField (key : String) : List (String × Json) → Option Json
  | [] => none
  | (k, v) :: rest => if k == key then some v else jsonGetField key rest

/-- Reading one iterator item inside the `Map` constructor: the item must be
object-typed (a JSON array or object), and the key and value are its `"0"`
and `"1"` properties (`none` models `undefined`). Strings, numbers, booleans
and `null` items make the constructor throw a `TypeError`. -/
def entryOfJson : Json → Option (Option Json × Option Json)
  | Json.arr elems => some (elems.get? 0, elems.get? 1)
  | Json.obj fields => some (jsonGetField "0" fields, jsonGetField "1" fields)
  | _ => none

/-- Contents of the `Map` built by `new Map(data)`: the entry list in
iteration order. After `importData` the map may hold arbitrary parsed data,
so keys and values are raw JSON (`none` standing for `undefined`). -/
def JsonMapData : Type := List (Option Json × Option Json)

/-- Semantics of `new Map(data)` applied to a parsed JSON value: `null`
yields an empty map, a string is iterable (its characters) but every
character fails the entry-object check unless the string is empty, an array
yields its items as entries when each one is object-typed, and every other
value is not iterable. `none` models a thrown `TypeError`. -/
def mapFromJson : Json → Option JsonMapData
  | Json.null => some []
  | Json.str s => if s.isEmpty then some [] else none
  | Json.arr elems => elems.mapM entryOfJson
  | _ => none

/-- `MessageStorage.importData` (src/MessageLoggerv2/storage.ts lines
169-179). The host `JSON.parse` is modelled as its result: `parsed = none`
when it throws, `some data` when it returns `data`. The first component is
the returned boolean, the second the in-memory `storage` after the call, and
the third the value written to local storage by `saveToLocalStorage`
(`none` when nothing is written). -/
def importData (storage : JsonMapData) (parsed : Option Json) :
    Bool × JsonMapData × Option JsonMapData :=
  match parsed with
  | none => (false, storage, none)
  | some data =>
    match mapFromJson data with
    | none => (false, storage, none)
    | some newStorage => (true, newStorage, some newStorage)

/-- Message author as delivered by the host message object. -/
structure MessageAuthor where
  id : String
  username : String
  globalName : Option String
  avatar : Option String
  bot : Bool
deriving DecidableEq, Repr

/-- Host message object, restricted to the fields `logMessage` and
`handleDelete` read (src/unnamed/part_000). `author` is optional because
`handleDelete` guards with `message.author?.bot` and `logMessage` with
`!message.author`. -/
structure Message where
  id : String
  content : String
  timestamp : String
  author : Option MessageAuthor
  attachments : List Attachment
  embeds : List EmbedData
  sticker_items : List Sticker
  channel_id : String
  edited_timestamp : Option String
deriving DecidableEq, Repr

/-- Settings of the MessageLoggerv2 plugin (src/unnamed/part_000 lines
378-411). -/
structure MLSettings where
  maxMessages : Int
  logImages : Bool
  logStickers : Bool
  logGifs : Bool
  logEmbeds : Bool
  logSelfMessages : Bool
deriving DecidableEq, Repr

/-- The `shouldLog` condition of `logMessage` (src/unnamed/part_000 lines
447-454). JavaScript truthiness of `message.content` is nonemptiness;
`a.content_type?.startsWith(...)` is false when `content_type` is absent. -/
def shouldLogMessage (s : MLSettings) (message : Message) (isDeleted : Bool) :
    Bool :=
  (!message.content.isEmpty) ||
  (s.logImages && (!message.attachments.isEmpty ||
      message.embeds.any (fun e => e.image || e.thumbnail))) ||
  (s.logStickers && !message.sticker_items.isEmpty) ||
  (s.logGifs && message.attachments.any
      (fun a => (a.content_type.getD "").startsWith "image/gif")) ||
  (s.logEmbeds && !message.embeds.isEmpty) ||
  isDeleted

/-- The `LoggedMessage` object built in the `messageStorage.addMessage` call
of `logMessage` (src/unnamed/part_000 lines 457-475). `currentGuildId`
models `getCurrentGuild()?.id` and `nowIso` models
`new Date().toISOString()`. -/
def loggedOfMessage (message : Message) (author : MessageAuthor)
    (currentGuildId : Option String) (isDeleted : Bool) (nowIso : String) :
    LoggedMessage :=
  { id := message.id
    content := message.content
    timestamp := message.timestamp
    author := { id := author.id, username := author.username,
                globalName := author.globalName, avatar := author.avatar }
    attachments := message.attachments
    embeds := message.embeds
    sticker_items := message.sticker_items
    channel_id := message.channel_id
    guild_id := currentGuildId
    edited_timestamp := message.edited_timestamp
    deleted := isDeleted
    deleted_timestamp := if isDeleted then some nowIso else none }

/-- `logMessage` (src/unnamed/part_000 lines 438-477). `currentUserId`
models `UserStore.getCurrentUser()?.id`. -/
def logMessage (s : MLSettings) (currentUserId : Option String)
    (currentGuildId : Option String) (nowIso : String) (now : Int)
    (storage : Storage) (message : Message) (isDeleted : Bool) : Storage :=
  match message.author with
  | none => storage
  | some author =>
    if author.bot then storage
    else if !s.logSelfMessages && currentUserId == some author.id then storage
    else if shouldLogMessage s message isDeleted then
      addMessage storage author.id
        (loggedOfMessage message author currentGuildId isDeleted nowIso) now
    else storage

/-- Cached chat message inside the host message store, restricted to the
`deleted` flag the plugin patches onto it. -/
structure CachedMessage where
  deleted : Bool
deriving DecidableEq, Repr

/-- The channel message cache handed to `handleDelete`, keyed by message id. -/
def Cache : Type := List (String × CachedMessage)

/-- The `cache.update(id, m => m.set("deleted", true))` step of
`handleDelete` (src/unnamed/part_000 lines 591-596): the entry with the
given id, when present, gets `deleted := true`; nothing is removed. -/
def cacheUpdateDeleted (cache : Cache) (id : String) : Cache :=
  cache.map (fun p => if p.1 == id then (p.1, { p.2 with deleted := true }) else p)

/-- One iteration of the `for (const id of ids)` loop of `handleDelete`
(src/unnamed/part_000 lines 584-598). `getMessage` models
`MessageStore.getMessage(data.channelId, -)` for the fixed channel. -/
def handleDeleteOne (s : MLSettings) (currentUserId currentGuildId : Option String)
    (nowIso : String) (now : Int) (getMessage : String → Option Message)
    (st : Storage × Cache) (id : String) : Storage × Cache :=
  match getMessage id with
  | some message =>
    if !(match message.author with | some a => a.bot | none => false) then
      (logMessage s currentUserId currentGuildId nowIso now st.1 message true,
       cacheUpdateDeleted st.2 id)
    else st
  | none => st

/-- `handleDelete` (src/unnamed/part_000 lines 579-603) applied to the id
list (`[data.id]` for a single delete, `data.ids` for a bulk delete). -/
def handleDelete (s : MLSettings) (currentUserId currentGuildId : Option String)
    (nowIso : String) (now : Int) (getMessage : String → Option Message)
    (storage : Storage) (cache : Cache) (ids : List String) : Storage × Cache :=
  ids.foldl (handleDeleteOne s currentUserId currentGuildId nowIso now getMessage)
    (storage, cache)

end MessageLoggerv2

namespace VoiceChannelLogger

/-- The `action` field of a log entry (`"join" | "leave"`). -/
inductive VoiceAction where
  | join : VoiceAction
  | leave : VoiceAction
deriving DecidableEq, Repr

/-- Nested `userData` record of `LogEntry` (src/unnamed/part_002 lines
193-199). -/
structure UserData where
  id : String
  username : String
  globalName : Option String
  avatar : Option String
  discriminator : Option String
deriving DecidableEq, Repr

/-- `LogEntry` interface (src/unnamed/part_002 lines 177-200). Timestamps
and durations are milliseconds, modelled as `Int`. -/
structure LogEntry where
  timestamp : Int
  userId : String
  username : String
  globalName : Option String
  channelId : String
  channelName : String
  guildId : Option String
  guildName : Option String
  action : VoiceAction
  sessionDuration : Option Int
  userAvatar : Option String
  userAvatarUrl : Option String
  userDiscriminator : Option String
  userData : Option UserData
deriving DecidableEq, Repr

/-- Settings of the VoiceChannelLogger plugin (src/unnamed/part_002 lines
268-333). `maxLogEntries`, `toastDuration` and `logsPerPage` are numeric
settings. -/
structure VCLSettings where
  enableFileLogging : Bool
  trackSessionDuration : Bool
  maxLogEntries : Int
  logOwnActions : Bool
  onlyLogJoins : Bool
  userFilter : String
  showToastNotifications : Bool
  suppressToastsForExistingUsers : Bool
  toastDuration : Int
  logsPerPage : Int
  enableDebugLogging : Bool
deriving DecidableEq, Repr

/-- `TOAST_SUPPRESSION_DURATION = 2000` (src/unnamed/part_002 line 255). -/
def TOAST_SUPPRESSION_DURATION : Int := 2000

/-- `INITIALIZATION_SUPPRESSION_DURATION = 5000` (src/unnamed/part_002 line
256). -/
def INITIALIZATION_SUPPRESSION_DURATION : Int := 5000

/-- `saveLogEntry` (src/unnamed/part_002 lines 369-390) acting on the stored
log list inside `DataStore.update` (`logs` defaults to `[]` when the key is
absent): skip when file logging is disabled, otherwise `unshift` the entry
and truncate to `maxLogEntries` entries when that setting is positive. -/
def saveLogEntry (s : VCLSettings) (logs : List LogEntry) (entry : LogEntry) :
    List LogEntry :=
  if !s.enableFileLogging then logs
  else
    let logs1 := entry :: logs
    if 0 < s.maxLogEntries ∧ s.maxLogEntries < (logs1.length : Int) then
      logs1.take s.maxLogEntries.toNat
    else logs1

/-- Persisted log produced by a sequence of `saveLogEntry` calls starting
from an empty `DataStore` value. -/
def saveAll (s : VCLSettings) (entries : List LogEntry) : List LogEntry :=
  entries.foldl (saveLogEntry s) []

/-- Session-duration tracking step of the `VOICE_STATE_UPDATES` handler
(src/unnamed/part_002 lines 1575-1587): the `userSessions` map update and
the computed `sessionDuration`. The `if (joinTime)` truthiness test makes a
stored `0` behave like an absent entry. -/
def sessionTrack (track : Bool) (sessions : List (String × Int))
    (userId : String) (action : VoiceAction) (now : Int) :
    Option Int × List (String × Int) :=
  if track then
    match action with
    | VoiceAction.join => (none, JsMap.set userId now sessions)
    | VoiceAction.leave =>
      match JsMap.get userId sessions with
      | some joinTime =>
        if joinTime ≠ 0 then (some (now - joinTime), JsMap.delete userId sessions)
        else (none, sessions)
      | none => (none, sessions)
  else (none, sessions)

/-- Value assigned to `initializationSuppressUntil` when the plugin
bootstraps inside a voice channel with `suppressToastsForExistingUsers`
enabled (src/unnamed/part_002 line 1435). -/
def initSuppressUntilAt (startupTime : Int) : Int :=
  startupTime + INITIALIZATION_SUPPRESSION_DURATION

/-- Value assigned to `suppressToastsUntil` when the current user switches
into a new voice channel (src/unnamed/part_002 line 1466). -/
def switchSuppressUntilAt (switchTime : Int) : Int :=
  switchTime + TOAST_SUPPRESSION_DURATION

/-- The `shouldSuppressToast` expression of the `VOICE_STATE_UPDATES`
handler (src/unnamed/part_002 lines 1638-1642), with
`isInNormalSuppression = now < suppressToastsUntil` and
`isInInitializationSuppression = now < initSuppressUntil`. -/
def shouldSuppressToast (s : VCLSettings)
    (suppressToastsUntil initSuppressUntil now : Int) (action : VoiceAction) :
    Bool :=
  s.suppressToastsForExistingUsers &&
    (decide (now < suppressToastsUntil) || decide (now < initSuppressUntil)) &&
    decide (action = VoiceAction.join)

/-- The toast decision of `logVoiceEvent` (src/unnamed/part_002 lines
459-463): a toast is shown exactly when notifications are enabled and the
event is not suppressed. -/
def toastShownByLogVoiceEvent (s : VCLSettings) (suppressToast : Bool) : Bool :=
  s.showToastNotifications && !suppressToast

/-- Whether a toast is shown for a processed voice event: the handler
computes `shouldSuppressToast` and passes it to `logVoiceEvent`
(src/unnamed/part_002 lines 1638-1644). -/
def processedEventToastShown (s : VCLSettings)
    (suppressToastsUntil initSuppressUntil now : Int) (action : VoiceAction) :
    Bool :=
  toastShownByLogVoiceEvent s
    (shouldSuppressToast s suppressToastsUntil initSuppressUntil now action)

end VoiceChannelLogger

namespace AutoMuter

/-- Settings of the AutoMuter plugin (src/unnamed/part_000 lines 21-60).
Slider values may be fractional and are modelled as rationals. -/
structure AMSettings where
  enablePlugin : Bool
  friendVolume : Rat
  nonFriendVolume : Rat
  enableNoiseDetection : Bool
  noiseThreshold : Rat
  muteDuration : Rat
deriving DecidableEq, Repr

/-- Mutable module state of AutoMuter touched by `monitorAudioLevel` and
`cleanupExpiredMutes`: `audioLevels` maps a user id to recent audio levels
and `mutedUsers` maps a user id to an unmute timestamp
(src/unnamed/part_000 lines 76-77). -/
structure AMState where
  audioLevels : List (String × List Rat)
  mutedUsers : List (String × Rat)
deriving DecidableEq, Repr

/-- State at module load: both maps empty. -/
def initialAMState : AMState := { audioLevels := [], mutedUsers := [] }

/-- `monitorAudioLevel` (src/unnamed/part_000 lines 162-204). `currentUserId`
models `UserStore.getCurrentUser()?.id`, `now` models `Date.now()` and
`muteOk` the return value of the `setUserMuted(userId, true)` host call. The
second component is the `(userId, unmuteTime)` pair captured by the
`setTimeout` callback when one is scheduled. -/
def monitorAudioLevel (s : AMSettings) (currentUserId : Option String)
    (now : Rat) (muteOk : Bool) (st : AMState) (userId : String)
    (audioLevel : Rat) : AMState × Option (String × Rat) :=
  if !s.enableNoiseDetection then (st, none)
  else if currentUserId == some userId then (st, none)
  else
    let levels0 := (JsMap.get userId st.audioLevels).getD []
    let levels1 := levels0 ++ [audioLevel]
    let levels2 := if 10 < levels1.length then levels1.tail else levels1
    let audioLevels1 := JsMap.set userId levels2 st.audioLevels
    if 5 ≤ levels2.length then
      let avgLevel := (levels2.foldl (fun a b => a + b) 0) / (levels2.length : Rat)
      if decide (s.noiseThreshold < avgLevel) &&
          !(JsMap.get userId st.mutedUsers).isSome then
        if muteOk then
          let unmuteTime := now + s.muteDuration * 1000
          ({ audioLevels := audioLevels1,
             mutedUsers := JsMap.set userId unmuteTime st.mutedUsers },
            some (userId, unmuteTime))
        else ({ audioLevels := audioLevels1, mutedUsers := st.mutedUsers }, none)
      else ({ audioLevels := audioLevels1, mutedUsers := st.mutedUsers }, none)
    else ({ audioLevels := audioLevels1, mutedUsers := st.mutedUsers }, none)

/-- `cleanupExpiredMutes` (src/unnamed/part_000 lines 280-289): every entry
of `mutedUsers` whose unmute time has passed is removed from both maps. -/
def cleanupExpiredMutes (now : Rat) (st : AMState) : AMState :=
  { audioLevels := st.audioLevels.filter (fun p =>
      !(st.mutedUsers.any (fun q => q.1 == p.1 && decide (q.2 ≤ now)))),
    mutedUsers := st.mutedUsers.filter (fun p => decide (now < p.2)) }

/-- Body of the auto-unmute callback scheduled by `monitorAudioLevel`
(src/unnamed/part_000 lines 192-200): the unmute effect (host unmute call,
map removal, volume reprocessing) happens only when `mutedUsers` still maps
the captured user id to the captured unmute time. The boolean records
whether the effect happened. -/
def unmuteCallback (mutedUsers : List (String × Rat)) (userId : String)
    (unmuteTime : Rat) : List (String × Rat) × Bool :=
  if JsMap.get userId mutedUsers == some unmuteTime then
    (JsMap.delete userId mutedUsers, true)
  else (mutedUsers, false)

/-- One `monitorAudioLevel` call description: settings, current user id,
current time, host mute success, target user and level. -/
def MonitorCall : Type :=
  AMSettings × Option String × Rat × Bool × String × Rat

/-- Run a sequence of `monitorAudioLevel` calls, threading the state. -/
def runMonitorCalls (calls : List MonitorCall) (st : AMState) : AMState :=
  match calls with
  | [] => st
  | (s, cur, now, ok, uid, lvl) :: rest =>
    runMonitorCalls rest (monitorAudioLevel s cur now ok st uid lvl).1

/-- Number of retained audio-level samples for a user. -/
def audioLevelCount (st : AMState) (u : String) : Nat :=
  ((JsMap.get u st.audioLevels).getD []).length

/-- The buffer update performed by one `monitorAudioLevel` call on the
target user: push the new level, then `shift` away the oldest sample once
the length exceeds 10 (src/unnamed/part_000 lines 171-177). -/
def bufferAfter (old : List Rat) (lvl : Rat) : List Rat :=
  let l1 := old ++ [lvl]
  if 10 < l1.length then l1.tail else l1

end AutoMuter

/-! Concrete sample data used by witnesses and counterexamples. -/

namespace MessageLoggerv2

/-- Sample author. -/
def authorA : LoggedAuthor :=
  { id := "1001", username := "alice", globalName := none, avatar := none }

/-- Sample logged message with id `"m1"`. -/
def msgA : LoggedMessage :=
  { id := "m1", content := "hello", timestamp := "2024-01-01T00:00:00.000Z",
    author := authorA, attachments := [], embeds := [], sticker_items := [],
    channel_id := "c1", guild_id := none, edited_timestamp := none,
    deleted := false, deleted_timestamp := none }

/-- Edited version of `msgA`: same id, new content. -/
def msgA2 : LoggedMessage := { msgA with content := "hello, edited" }

/-- Default plugin settings: `logSelfMessages` is off. -/
def mlSettingsNoSelf : MLSettings :=
  { maxMessages := 1000, logImages := true, logStickers := true,
    logGifs := true, logEmbeds := true, logSelfMessages := false }

/-- Author record of the current user. -/
def selfAuthor : MessageAuthor :=
  { id := "me", username := "self", globalName := none, avatar := none,
    bot := false }

/-- Message authored by the current user. -/
def selfMessage : Message :=
  { id := "m1", content := "hi", timestamp := "2024-01-01T00:00:00.000Z",
    author := some selfAuthor, attachments := [], embeds := [],
    sticker_items := [], channel_id := "c1", edited_timestamp := none }

/-- Host message store containing only `selfMessage` under id `"m1"`. -/
def getMessageSelf : String → Option Message :=
  fun i => if i == "m1" then some selfMessage else none

/-- Author record of another, non-bot user. -/
def aliceAuthor : MessageAuthor :=
  { id := "1001", username := "alice", globalName := none, avatar := none,
    bot := false }

/-- Message authored by the other user. -/
def aliceMessage : Message :=
  { id := "m2", content := "hey", timestamp := "2024-01-01T00:00:01.000Z",
    author := some aliceAuthor, attachments := [], embeds := [],
    sticker_items := [], channel_id := "c1", edited_timestamp := none }

/-- Host message store containing only `aliceMessage` under id `"m2"`. -/
def getMessageAlice : String → Option Message :=
  fun i => if i == "m2" then some aliceMessage else none

/-- Channel cache holding the cached version of `aliceMessage`. -/
def cacheOne : Cache := [("m2", { deleted := false })]

/-- Nonempty imported storage used to show that a failing import leaves the
store untouched. -/
def sampleJMap : JsonMapData := [(some (Json.str "u"), some Json.null)]

end MessageLoggerv2

namespace VoiceChannelLogger

/-- Sample join log entry. -/
def entryJoin : LogEntry :=
  { timestamp := 1000, userId := "u1", username := "alice",
    globalName := none, channelId := "c1", channelName := "General",
    guildId := none, guildName := none, action := VoiceAction.join,
    sessionDuration := none, userAvatar := none, userAvatarUrl := none,
    userDiscriminator := none, userData := none }

/-- Settings with `maxLogEntries = 0`, which the settings description calls
unlimited. -/
def vclUnlimited : VCLSettings :=
  { enableFileLogging := true, trackSessionDuration := true,
    maxLogEntries := 0, logOwnActions := false, onlyLogJoins := false,
    userFilter := "", showToastNotifications := true,
    suppressToastsForExistingUsers := true, toastDuration := 3,
    logsPerPage := 50, enableDebugLogging := false }

/-- Default settings (`maxLogEntries = 1000`). -/
def vclDefault : VCLSettings := { vclUnlimited with maxLogEntries := 1000 }

end VoiceChannelLogger

namespace AutoMuter

/-- Default AutoMuter settings. -/
def amDefault : AMSettings :=
  { enablePlugin := true, friendVolume := 75, nonFriendVolume := 50,
    enableNoiseDetection := true, noiseThreshold := 80, muteDuration := 5 }

end AutoMuter

end VencordPlugins

/-! Helper lemmas about the `JsMap` and `findIndex` models. -/

namespace VencordPlugins

theorem find?_cons_true {α : Type} (pr : α → Bool) (a : α) (l : List α)
    (h : pr a = true) : (a :: l).find? pr = some a := by
  simp [List.find?_cons, h]

theorem find?_cons_false {α : Type} (pr : α → Bool) (a : α) (l : List α)
    (h : pr a = false) : (a :: l).find? pr = l.find? pr := by
  simp [List.find?_cons, h]

theorem JsMap.find_map_replace {α : Type} (k : String) (v : α) :
    ∀ m : List (String × α), m.any (fun p => p.1 == k) = true →
      ((m.map (fun p => if p.1 == k then (k, v) else p)).find?
        (fun p => p.1 == k)) = some (k, v)
  | [], h => by simp at h
  | p :: rest, h => by
    rw [List.map_cons]
    by_cases hp : (p.1 == k) = true
    · rw [if_pos hp]
      exact find?_cons_true (fun q => q.1 == k) (k, v) _ (by simp)
    · have hF : (p.1 == k) = false := by simpa using hp
      rw [if_neg hp]
      rw [find?_cons_false (fun q => q.1 == k) p _ hF]
      have hr : rest.any (fun q => q.1 == k) = true := by
        simpa [List.any_cons, hF] using h
      exact JsMap.find_map_replace k v rest hr

theorem JsMap.get_set_self {α : Type} (k : String) (v : α)
    (m : List (String × α)) : JsMap.get k (JsMap.set k v m) = some v := by
  unfold JsMap.set
  by_cases h : m.any (fun p => p.1 == k) = true
  · rw [if_pos h]
    unfold JsMap.get
    rw [JsMap.find_map_replace k v m h]
    rfl
  · rw [if_neg h]
    unfold JsMap.get
    rw [List.find?_append]
    have hnone : m.find? (fun p => p.1 == k) = none := by
      rw [List.find?_eq_none]
      intro x hx hcontra
      exact h (List.any_eq_true.mpr ⟨x, hx, hcontra⟩)
    rw [hnone, Option.none_or,
      find?_cons_true (fun p => p.1 == k) (k, v) [] (by simp)]
    rfl

theorem JsMap.find_map_replace_ne {α : Type} (k u : String) (v : α)
    (huk : u ≠ k) :
    ∀ m : List (String × α),
      ((m.map (fun p => if p.1 == k then (k, v) else p)).find?
        (fun p => p.1 == u)) = m.find? (fun p => p.1 == u)
  | [] => rfl
  | p :: rest => by
    rw [List.map_cons]
    have hku : ¬ (k = u) := fun hek => huk hek.symm
    by_cases hp : (p.1 == k) = true
    · have hpk : p.1 = k := by simpa using hp
      rw [if_pos hp]
      rw [find?_cons_false (fun q => q.1 == u) (k, v) _ (by simp [hku])]
      rw [find?_cons_false (fun q => q.1 == u) p _ (by simp [hpk, hku])]
      exact JsMap.find_map_replace_ne k u v huk rest
    · rw [if_neg hp]
      by_cases hq : (p.1 == u) = true
      · rw [find?_cons_true (fun q => q.1 == u) p _ hq,
          find?_cons_true (fun q => q.1 == u) p _ hq]
      · have hqF : (p.1 == u) = false := by simpa using hq
        rw [find?_cons_false (fun q => q.1 == u) p _ hqF,
          find?_cons_false (fun q => q.1 == u) p _ hqF]
        exact JsMap.find_map_replace_ne k u v huk rest

theorem JsMap.get_set_ne {α : Type} (k u : String) (v : α)
    (m : List (String × α)) (huk : u ≠ k) :
    JsMap.get u (JsMap.set k v m) = JsMap.get u m := by
  unfold JsMap.set
  by_cases h : m.any (fun p => p.1 == k) = true
  · rw [if_pos h]
    unfold JsMap.get
    rw [JsMap.find_map_replace_ne k u v huk m]
  · rw [if_neg h]
    unfold JsMap.get
    have hku : ¬ (k = u) := fun hek => huk hek.symm
    rw [List.find?_append,
      find?_cons_false (fun p => p.1 == u) (k, v) [] (by simp [hku])]
    rw [List.find?_nil, Option.or_none]

theorem JsMap.get_delete_self {α : Type} (k : String)
    (m : List (String × α)) : JsMap.get k (JsMap.delete k m) = none := by
  unfold JsMap.get JsMap.delete
  have hnone : (m.filter fun p => !(p.1 == k)).find? (fun p => p.1 == k) = none := by
    rw [List.find?_eq_none]
    intro x hx
    have hkeep := (List.mem_filter.mp hx).2
    intro hcontra
    rw [hcontra] at hkeep
    simp at hkeep
  rw [hnone]
  rfl

theorem findIndex_none {α : Type} (p : α → Bool) :
    ∀ l : List α, findIndex p l = none → ∀ x ∈ l, p x = false
  | [], _, x, hx => absurd hx (List.not_mem_nil x)
  | a :: l, h, x, hx => by
    unfold findIndex at h
    cases hpa : p a with
    | true => simp [hpa] at h
    | false =>
      rw [if_neg (by simp [hpa])] at h
      rw [Option.map_eq_none'] at h
      rcases List.mem_cons.mp hx with hxa | hxl
      · rw [hxa]; exact hpa
      · exact findIndex_none p l h x hxl

theorem findIndex_some {α : Type} (p : α → Bool) :
    ∀ (l : List α) (i : Nat), findIndex p l = some i →
      ∃ x, l.get? i = some x ∧ p x = true
  | [], i, h => by simp [findIndex] at h
  | a :: l, i, h => by
    unfold findIndex at h
    cases hpa : p a with
    | true =>
      rw [if_pos (by simp [hpa])] at h
      obtain rfl : (0 : Nat) = i := Option.some.inj h
      exact ⟨a, rfl, hpa⟩
    | false =>
      rw [if_neg (by simp [hpa])] at h
      rw [Option.map_eq_some'] at h
      obtain ⟨j, hj, rfl⟩ := h
      obtain ⟨x, hget, hpx⟩ := findIndex_some p l j hj
      exact ⟨x, hget, hpx⟩

theorem set_get?_eq_self {α : Type} :
    ∀ (l : List α) (i : Nat) (a : α), l.get? i = some a → l.set i a = l
  | [], _, _, h => by simp at h
  | x :: l, 0, a, h => by
    obtain rfl : x = a := by simpa using h
    rfl
  | x :: l, i + 1, a, h => by
    have hl : l.set i a = l := set_get?_eq_self l i a (by simpa using h)
    simp [List.set, hl]

end VencordPlugins

/-! Claims C1 and C10: bounded retention and id uniqueness of
`MessageStorage.addMessage`. -/

namespace VencordPlugins.MessageLoggerv2

theorem addMessageList_length_le (messages : List LoggedMessage)
    (message : LoggedMessage) :
    (addMessageList messages message).length ≤ maxMessagesPerUser := by
  unfold addMessageList
  by_cases h : maxMessagesPerUser < (insertOrReplace messages message).length
  · simp [h, List.length_take]
  · simp only [h, if_false]
    omega

theorem getMessages_addMessage (storage : Storage) (uid : String)
    (m : LoggedMessage) (t : Int) (u : String) :
    getMessages (addMessage storage uid m t) u =
      if u = uid then addMessageList (getMessages storage uid) m
      else getMessages storage u := by
  unfold addMessage getMessages
  by_cases h : u = uid
  · simp only [h, if_pos rfl]
    cases storage uid <;> rfl
  · simp [h]

theorem getMessageCount_eq_length (storage : Storage) (u : String) :
    getMessageCount storage u = (getMessages storage u).length := by
  unfold getMessageCount getMessages
  cases storage u <;> rfl

theorem applyAdds_count_le :
    ∀ (ops : List (String × LoggedMessage × Int)) (storage : Storage),
      (∀ u, getMessageCount storage u ≤ maxMessagesPerUser) →
      ∀ u, getMessageCount (applyAdds ops storage) u ≤ maxMessagesPerUser
  | [], _, h, u => h u
  | (uid, m, t) :: rest, storage, h, u => by
    refine applyAdds_count_le rest _ (fun w => ?_) u
    rw [getMessageCount_eq_length, getMessages_addMessage]
    by_cases hw : w = uid
    · simp only [hw, if_pos rfl]
      exact addMessageList_length_le _ _
    · rw [if_neg hw, ← getMessageCount_eq_length]
      exact h w

/-- C1: over every sequence of `addMessage` calls, the stored message list of
every user never exceeds `maxMessagesPerUser = 1000` entries, and each
`addMessage` truncates the newest-first insert-or-replace result to its first
1000 entries. -/
theorem addMessage_bounded_retention :
    (∀ messages message,
        addMessageList messages message =
          (insertOrReplace messages message).take maxMessagesPerUser) ∧
    (∀ ops u, getMessageCount (applyAdds ops emptyStorage) u ≤
        maxMessagesPerUser) := by
  constructor
  · intro messages message
    unfold addMessageList
    by_cases h : maxMessagesPerUser < (insertOrReplace messages message).length
    · simp [h]
    · simp only [h, if_false]
      exact (List.take_of_length_le (by omega)).symm
  · intro ops u
    refine applyAdds_count_le ops emptyStorage (fun w => ?_) u
    simp [getMessageCount, emptyStorage]

theorem insertOrReplace_nodup (messages : List LoggedMessage)
    (message : LoggedMessage)
    (h : (messages.map LoggedMessage.id).Nodup) :
    ((insertOrReplace messages message).map LoggedMessage.id).Nodup := by
  unfold insertOrReplace
  cases hf : findIndex (fun x => x.id == message.id) messages with
  | none =>
    simp only [List.map_cons]
    refine List.nodup_cons.mpr ⟨?_, h⟩
    intro hmem
    obtain ⟨x, hx, hid⟩ := List.mem_map.mp hmem
    have hfalse := findIndex_none _ _ hf x hx
    rw [hid] at hfalse
    simp at hfalse
  | some i =>
    obtain ⟨x, hget, hpx⟩ := findIndex_some _ _ _ hf
    have hxid : x.id = message.id := by simpa using hpx
    have heq : (messages.set i message).map LoggedMessage.id =
        messages.map LoggedMessage.id := by
      rw [List.map_set]
      apply set_get?_eq_self
      rw [List.get?_map, hget]
      simp [hxid]
    rw [heq]
    exact h

theorem addMessageList_nodup (messages : List LoggedMessage)
    (message : LoggedMessage)
    (h : (messages.map LoggedMessage.id).Nodup) :
    ((addMessageList messages message).map LoggedMessage.id).Nodup := by
  unfold addMessageList
  by_cases hl : maxMessagesPerUser < (insertOrReplace messages message).length
  · simp only [hl, if_true]
    rw [List.map_take]
    exact List.Nodup.sublist (List.take_sublist _ _)
      (insertOrReplace_nodup messages message h)
  · simp only [hl, if_false]
    exact insertOrReplace_nodup messages message h

theorem applyAdds_nodup :
    ∀ (ops : List (String × LoggedMessage × Int)) (storage : Storage),
      (∀ u, ((getMessages storage u).map LoggedMessage.id).Nodup) →
      ∀ u, ((getMessages (applyAdds ops storage) u).map LoggedMessage.id).Nodup
  | [], _, h, u => h u
  | (uid, m, t) :: rest, storage, h, u => by
    refine applyAdds_nodup rest _ (fun w => ?_) u
    rw [getMessages_addMessage]
    by_cases hw : w = uid
    · simp only [hw, if_pos rfl]
      exact addMessageList_nodup _ _ (h uid)
    · rw [if_neg hw]
      exact h w

/-- C10: in every store reachable by `addMessage` the per-user logs are
id-unique; `addMessageList` preserves id-uniqueness, and when the incoming
id is already present the existing entry is replaced in place (at its
position, via `findIndex` and assignment) instead of a second entry being
inserted. -/
theorem addMessage_id_unique :
    (∀ ops u,
        ((getMessages (applyAdds ops emptyStorage) u).map LoggedMessage.id).Nodup) ∧
    (∀ messages message, (messages.map LoggedMessage.id).Nodup →
        ((addMessageList messages message).map LoggedMessage.id).Nodup) ∧
    (∀ messages message i,
        findIndex (fun x => x.id == message.id) messages = some i →
        insertOrReplace messages message = messages.set i message) := by
  refine ⟨?_, addMessageList_nodup, ?_⟩
  · intro ops u
    refine applyAdds_nodup ops emptyStorage (fun w => ?_) u
    simp [getMessages, emptyStorage]
  · intro messages message i h
    unfold insertOrReplace
    rw [h]

/-- Witness for C10 at a concrete edit: a one-element log with id `"m1"`
receives an edited message with the same id. -/
theorem addMessage_id_unique_witness :
    (([msgA].map LoggedMessage.id).Nodup ∧
      ((addMessageList [msgA] msgA2).map LoggedMessage.id).Nodup) ∧
    (findIndex (fun x => x.id == msgA2.id) [msgA] = some 0 ∧
      insertOrReplace [msgA] msgA2 = [msgA].set 0 msgA2) :=
  ⟨⟨by decide, addMessage_id_unique.2.1 [msgA] msgA2 (by decide)⟩,
   ⟨by decide, addMessage_id_unique.2.2 [msgA] msgA2 0 (by decide)⟩⟩

end VencordPlugins.MessageLoggerv2

/-! Claims C6 and C9: `MessageStorage.importData`. -/

namespace VencordPlugins.MessageLoggerv2

/-- C6 counterexample: the claim says `importData` returns true exactly when
the input parses as JSON. The string `"5"` parses as JSON (to the number 5),
yet `new Map(5)` throws, so `importData` returns false on a successfully
parsed input. -/
theorem importData_not_parse_iff :
    ¬ (∀ (storage : JsonMapData) (parsed : Option Json),
        ((importData storage parsed).1 = true ↔ parsed.isSome = true)) := by
  intro h
  have h5 := (h [] (some (Json.num 5))).2 rfl
  exact absurd h5 (by decide)

/-- C6 (amended): `importData` returns true and replaces the whole store
exactly when the host parse succeeded and the parsed value is accepted by
the `Map` constructor; it returns false both when `JSON.parse` throws and
when `new Map(data)` throws. -/
theorem importData_success_iff (storage : JsonMapData) (parsed : Option Json) :
    ((importData storage parsed).1 = true ↔
      ∃ data newStorage, parsed = some data ∧ mapFromJson data = some newStorage) ∧
    (∀ data newStorage, parsed = some data → mapFromJson data = some newStorage →
      (importData storage parsed).2.1 = newStorage ∧
      (importData storage parsed).2.2 = some newStorage) := by
  constructor
  · constructor
    · intro h
      cases hp : parsed with
      | none => rw [hp] at h; simp [importData] at h
      | some data =>
        cases hm : mapFromJson data with
        | none => rw [hp] at h; simp [importData, hm] at h
        | some ns => exact ⟨data, ns, rfl, hm⟩
    · rintro ⟨data, ns, rfl, hm⟩
      simp [importData, hm]
  · rintro data ns rfl hm
    simp [importData, hm]

/-- Witness for C6 at a concrete successful import: the JSON value `null`
(from the string `"null"`) is accepted by the `Map` constructor and yields
an empty store. -/
theorem importData_success_iff_witness :
    ((some Json.null : Option Json) = some Json.null ∧
      mapFromJson Json.null = some []) ∧
    ((importData sampleJMap (some Json.null)).2.1 = [] ∧
      (importData sampleJMap (some Json.null)).2.2 = some []) :=
  ⟨⟨rfl, rfl⟩,
   (importData_success_iff sampleJMap (some Json.null)).2 Json.null [] rfl rfl⟩

/-- C9: when `importData` returns false, the in-memory store is unchanged
and nothing is written to local storage: both the parse and the `Map`
construction happen before the assignment to `this.storage` and before
`saveToLocalStorage`. -/
theorem importData_atomic_on_failure (storage : JsonMapData)
    (parsed : Option Json)
    (h : (importData storage parsed).1 = false) :
    (importData storage parsed).2.1 = storage ∧
    (importData storage parsed).2.2 = none := by
  cases hp : parsed with
  | none => simp [importData]
  | some data =>
    cases hm : mapFromJson data with
    | none => simp [importData, hm]
    | some ns =>
      rw [hp] at h
      simp [importData, hm] at h

/-- Witness for C9 at a concrete failing import: the JSON number 5 (from the
string `"5"`) makes `new Map(5)` throw, and the nonempty store is kept. -/
theorem importData_atomic_on_failure_witness :
    (importData sampleJMap (some (Json.num 5))).1 = false ∧
    ((importData sampleJMap (some (Json.num 5))).2.1 = sampleJMap ∧
      (importData sampleJMap (some (Json.num 5))).2.2 = none) :=
  ⟨rfl, importData_atomic_on_failure sampleJMap (some (Json.num 5)) rfl⟩

end VencordPlugins.MessageLoggerv2

/-! Claim C5: soft deletion in `handleDelete`. -/

namespace VencordPlugins.MessageLoggerv2

theorem shouldLogMessage_deleted (s : MLSettings) (message : Message) :
    shouldLogMessage s message true = true := by
  simp [shouldLogMessage]

theorem get_cacheUpdateDeleted (cache : Cache) (id : String) :
    JsMap.get id (cacheUpdateDeleted cache id) =
      (JsMap.get id cache).map (fun c => { c with deleted := true }) := by
  induction cache with
  | nil => rfl
  | cons p rest ih =>
    by_cases hp : (p.1 == id) = true
    · have hp' : p.1 = id := by simpa using hp
      simp [cacheUpdateDeleted, JsMap.get, List.find?_cons, hp']
    · have hF' : ¬ (p.1 = id) := by simpa using hp
      simpa [cacheUpdateDeleted, JsMap.get, List.find?_cons, hF'] using ih

/-- C5 counterexample: a non-bot message that is present in the message
store when its deletion is handled, yet is never logged, because it was
authored by the current user and `logSelfMessages` is off (the default).
The per-author log stays empty after `handleDelete`. -/
theorem handleDelete_self_message_not_logged :
    getMessageSelf "m1" = some selfMessage ∧
    (match selfMessage.author with | some a => a.bot | none => false) = false ∧
    getMessages
      (handleDelete mlSettingsNoSelf (some "me") none "2024-06-01" 0
        getMessageSelf emptyStorage [] ["m1"]).1 "me" = [] :=
  ⟨rfl, rfl, rfl⟩

/-- C5 (amended): for every non-bot message present in the message store
that passes the logging filter (it has an author and is either not the
current user's own message or `logSelfMessages` is on), `handleDelete` adds
a per-author log entry with `deleted = true` and `deleted_timestamp` set to
the deletion time, and marks the cached message as deleted in place instead
of removing it. -/
theorem handleDelete_soft_deletes (s : MLSettings)
    (currentUserId currentGuildId : Option String) (nowIso : String)
    (now : Int) (getMessage : String → Option Message) (storage : Storage)
    (cache : Cache) (id : String) (message : Message)
    (author : MessageAuthor)
    (hget : getMessage id = some message)
    (hauthor : message.author = some author)
    (hbot : author.bot = false)
    (hself : s.logSelfMessages = true ∨ currentUserId ≠ some author.id) :
    handleDelete s currentUserId currentGuildId nowIso now getMessage
        storage cache [id] =
      (addMessage storage author.id
        (loggedOfMessage message author currentGuildId true nowIso) now,
       cacheUpdateDeleted cache id) ∧
    (loggedOfMessage message author currentGuildId true nowIso).deleted = true ∧
    (loggedOfMessage message author currentGuildId true nowIso).deleted_timestamp
      = some nowIso ∧
    JsMap.get id (cacheUpdateDeleted cache id) =
      (JsMap.get id cache).map (fun c => { c with deleted := true }) := by
  have hcond : (!s.logSelfMessages && (currentUserId == some author.id)) = false := by
    rcases hself with hs | hs
    · simp [hs]
    · have hb : (currentUserId == some author.id) = false := by
        rw [beq_eq_false_iff_ne]
        exact hs
      simp [hb]
  refine ⟨?_, rfl, rfl, get_cacheUpdateDeleted cache id⟩
  unfold handleDelete
  rw [List.foldl_cons, List.foldl_nil]
  unfold handleDeleteOne
  rw [hget]
  dsimp only
  rw [hauthor]
  dsimp only
  rw [hbot]
  simp only [Bool.not_false]
  rw [if_pos trivial]
  unfold logMessage
  rw [hauthor]
  dsimp only
  rw [if_neg (by simp [hbot])]
  rw [if_neg (by simp [hcond])]
  rw [if_pos (shouldLogMessage_deleted s message)]

end VencordPlugins.MessageLoggerv2

namespace VencordPlugins.MessageLoggerv2

/-- Witness for C5: deleting another user's cached non-bot message logs it
as deleted and marks the cache entry. -/
theorem handleDelete_soft_deletes_witness :
    (getMessageAlice "m2" = some aliceMessage ∧
      aliceMessage.author = some aliceAuthor ∧
      aliceAuthor.bot = false ∧
      (mlSettingsNoSelf.logSelfMessages = true ∨
        (some "me" : Option String) ≠ some aliceAuthor.id)) ∧
    (handleDelete mlSettingsNoSelf (some "me") none "2024-06-01" 7
        getMessageAlice emptyStorage cacheOne ["m2"] =
      (addMessage emptyStorage aliceAuthor.id
        (loggedOfMessage aliceMessage aliceAuthor none true "2024-06-01") 7,
       cacheUpdateDeleted cacheOne "m2") ∧
     (loggedOfMessage aliceMessage aliceAuthor none true "2024-06-01").deleted
        = true ∧
     (loggedOfMessage aliceMessage aliceAuthor none true
        "2024-06-01").deleted_timestamp = some "2024-06-01" ∧
     JsMap.get "m2" (cacheUpdateDeleted cacheOne "m2") =
       (JsMap.get "m2" cacheOne).map (fun c => { c with deleted := true })) :=
  ⟨⟨rfl, rfl, rfl, Or.inr (by decide)⟩,
   handleDelete_soft_deletes mlSettingsNoSelf (some "me") none "2024-06-01" 7
     getMessageAlice emptyStorage cacheOne "m2" aliceMessage aliceAuthor rfl
     rfl rfl (Or.inr (by decide))⟩

end VencordPlugins.MessageLoggerv2

/-! Claims C2, C3 and C4: the VoiceChannelLogger log bound, session-duration
accounting and toast-suppression windows. -/

namespace VencordPlugins.VoiceChannelLogger

/-- C2 counterexample: with `maxLogEntries = 0` (documented as unlimited)
the persisted log grows past the configured value, so the bound does not
hold for every setting of `maxLogEntries`. -/
theorem saveLogEntry_not_bounded_for_all_settings :
    ¬ (∀ (s : VCLSettings) (entries : List LogEntry),
        ((saveAll s entries).length : Int) ≤ s.maxLogEntries) := by
  intro h
  exact absurd (h vclUnlimited [entryJoin]) (by decide)

/-- C2 (amended): for every positive `maxLogEntries` the persisted log never
exceeds that many entries over any sequence of `saveLogEntry` calls, and
each persisted entry is placed first (newest first); `maxLogEntries = 0`
disables the bound. -/
theorem saveLogEntry_bounded (s : VCLSettings) (hmax : 0 < s.maxLogEntries) :
    (∀ entries, ((saveAll s entries).length : Int) ≤ s.maxLogEntries) ∧
    (∀ logs entry, s.enableFileLogging = true →
      (saveLogEntry s logs entry).head? = some entry) := by
  have step : ∀ logs entry, ((logs : List LogEntry).length : Int) ≤ s.maxLogEntries →
      ((saveLogEntry s logs entry).length : Int) ≤ s.maxLogEntries := by
    intro logs entry hlen
    unfold saveLogEntry
    by_cases he : (!s.enableFileLogging) = true
    · rw [if_pos he]; exact hlen
    · rw [if_neg he]
      by_cases hc : 0 < s.maxLogEntries ∧
          s.maxLogEntries < ((entry :: logs).length : Int)
      · rw [if_pos hc]
        rw [List.length_take]
        have h1 : (s.maxLogEntries.toNat : Int) = s.maxLogEntries :=
          Int.toNat_of_nonneg (le_of_lt hmax)
        have h2 := min_le_left s.maxLogEntries.toNat (entry :: logs).length
        omega
      · rw [if_neg hc]
        simp only [List.length_cons] at *
        push_cast at *
        omega
  constructor
  · have fold : ∀ (entries : List LogEntry) (logs : List LogEntry),
        ((logs.length : Int) ≤ s.maxLogEntries) →
        (((entries.foldl (saveLogEntry s) logs).length : Int) ≤ s.maxLogEntries) := by
      intro entries
      induction entries with
      | nil => intro logs h; exact h
      | cons e rest ih => intro logs h; exact ih _ (step logs e h)
    intro entries
    exact fold entries [] (by simpa using le_of_lt hmax)
  · intro logs entry he
    unfold saveLogEntry
    rw [if_neg (by simp [he])]
    by_cases hc : 0 < s.maxLogEntries ∧
        s.maxLogEntries < ((entry :: logs).length : Int)
    · rw [if_pos hc]
      have h1 : 0 < s.maxLogEntries.toNat := by omega
      obtain ⟨k, hk⟩ := Nat.exists_eq_succ_of_ne_zero (Nat.pos_iff_ne_zero.mp h1)
      rw [hk, List.take_succ_cons]
      rfl
    · rw [if_neg hc]
      rfl

/-- Witness for C2 with the default positive bound. -/
theorem saveLogEntry_bounded_witness :
    (0 : Int) < vclDefault.maxLogEntries ∧
    ((saveAll vclDefault [entryJoin]).length : Int) ≤ vclDefault.maxLogEntries ∧
    (saveLogEntry vclDefault [] entryJoin).head? = some entryJoin :=
  ⟨by decide,
   (saveLogEntry_bounded vclDefault (by decide)).1 [entryJoin],
   (saveLogEntry_bounded vclDefault (by decide)).2 [] entryJoin rfl⟩

end VencordPlugins.VoiceChannelLogger

namespace VencordPlugins.VoiceChannelLogger

/-- C3: with `trackSessionDuration` on, a join records the join timestamp in
`userSessions`; a leave with a recorded (nonzero, as every `Date.now()`
value is) join timestamp is logged with `sessionDuration = now - joinTime`
and removes the pending entry; a leave without a recorded join carries no
`sessionDuration` and leaves the map unchanged. -/
theorem sessionDuration_accounting (sessions : List (String × Int))
    (userId : String) (now : Int) :
    (JsMap.get userId
        (sessionTrack true sessions userId VoiceAction.join now).2 = some now ∧
      (sessionTrack true sessions userId VoiceAction.join now).1 = none) ∧
    (∀ joinTime, JsMap.get userId sessions = some joinTime → joinTime ≠ 0 →
      (sessionTrack true sessions userId VoiceAction.leave now).1
          = some (now - joinTime) ∧
      JsMap.get userId
        (sessionTrack true sessions userId VoiceAction.leave now).2 = none) ∧
    (JsMap.get userId sessions = none →
      sessionTrack true sessions userId VoiceAction.leave now
        = (none, sessions)) := by
  refine ⟨⟨?_, rfl⟩, ?_, ?_⟩
  · exact JsMap.get_set_self userId now sessions
  · intro joinTime hget hne
    have hstep : sessionTrack true sessions userId VoiceAction.leave now =
        (some (now - joinTime), JsMap.delete userId sessions) := by
      simp [sessionTrack, hget, hne]
    rw [hstep]
    exact ⟨rfl, JsMap.get_delete_self userId sessions⟩
  · intro hget
    simp [sessionTrack, hget]

/-- Witness for C3: a leave at time 5000 for a user whose join was recorded
at time 100 is logged with duration 4900 and clears the entry. -/
theorem sessionDuration_accounting_witness :
    (JsMap.get "u1" [("u1", (100 : Int))] = some 100 ∧ (100 : Int) ≠ 0) ∧
    ((sessionTrack true [("u1", (100 : Int))] "u1" VoiceAction.leave 5000).1
        = some (5000 - 100) ∧
      JsMap.get "u1"
        (sessionTrack true [("u1", (100 : Int))] "u1" VoiceAction.leave 5000).2
        = none) :=
  ⟨⟨by decide, by decide⟩,
   (sessionDuration_accounting [("u1", (100 : Int))] "u1" 5000).2.1 100
     (by decide) (by decide)⟩

/-- C4: with `suppressToastsForExistingUsers` on, no toast is shown for a
join processed inside either suppression window (within 5000 ms of startup
or 2000 ms of the current user switching channels); joins outside both
windows and all leaves still show a toast whenever
`showToastNotifications` is on. -/
theorem toast_suppression_windows (s : VCLSettings)
    (hs : s.suppressToastsForExistingUsers = true)
    (startupTime switchTime now : Int) :
    ((now < initSuppressUntilAt startupTime ∨
        now < switchSuppressUntilAt switchTime) →
      processedEventToastShown s (switchSuppressUntilAt switchTime)
        (initSuppressUntilAt startupTime) now VoiceAction.join = false) ∧
    (s.showToastNotifications = true →
      ¬ now < initSuppressUntilAt startupTime →
      ¬ now < switchSuppressUntilAt switchTime →
      processedEventToastShown s (switchSuppressUntilAt switchTime)
        (initSuppressUntilAt startupTime) now VoiceAction.join = true) ∧
    (s.showToastNotifications = true →
      processedEventToastShown s (switchSuppressUntilAt switchTime)
        (initSuppressUntilAt startupTime) now VoiceAction.leave = true) := by
  refine ⟨?_, ?_, ?_⟩
  · intro h
    rcases h with h1 | h2
    · have hd : decide (now < initSuppressUntilAt startupTime) = true :=
        decide_eq_true h1
      simp [processedEventToastShown, toastShownByLogVoiceEvent,
        shouldSuppressToast, hs, hd]
    · have hd : decide (now < switchSuppressUntilAt switchTime) = true :=
        decide_eq_true h2
      simp [processedEventToastShown, toastShownByLogVoiceEvent,
        shouldSuppressToast, hs, hd]
  · intro hshow h1 h2
    have hd1 : decide (now < initSuppressUntilAt startupTime) = false :=
      decide_eq_false h1
    have hd2 : decide (now < switchSuppressUntilAt switchTime) = false :=
      decide_eq_false h2
    simp [processedEventToastShown, toastShownByLogVoiceEvent,
      shouldSuppressToast, hshow, hd1, hd2]
  · intro hshow
    simp [processedEventToastShown, toastShownByLogVoiceEvent,
      shouldSuppressToast, hshow]

/-- Witness for C4: with default settings and both windows opened at time 0,
a join processed at time 1000 (inside both windows) shows no toast, a join
processed at time 10000 (outside both) does, and a leave at time 1000
does. -/
theorem toast_suppression_windows_witness :
    (vclDefault.suppressToastsForExistingUsers = true ∧
      ((1000 : Int) < initSuppressUntilAt 0 ∨
        (1000 : Int) < switchSuppressUntilAt 0) ∧
      vclDefault.showToastNotifications = true ∧
      ¬ (10000 : Int) < initSuppressUntilAt 0 ∧
      ¬ (10000 : Int) < switchSuppressUntilAt 0) ∧
    (processedEventToastShown vclDefault (switchSuppressUntilAt 0)
        (initSuppressUntilAt 0) 1000 VoiceAction.join = false ∧
      processedEventToastShown vclDefault (switchSuppressUntilAt 0)
        (initSuppressUntilAt 0) 10000 VoiceAction.join = true ∧
      processedEventToastShown vclDefault (switchSuppressUntilAt 0)
        (initSuppressUntilAt 0) 1000 VoiceAction.leave = true) :=
  ⟨⟨rfl, Or.inl (by decide), rfl, by decide, by decide⟩,
   (toast_suppression_windows vclDefault rfl 0 0 1000).1 (Or.inl (by decide)),
   (toast_suppression_windows vclDefault rfl 0 0 10000).2.1 rfl (by decide)
     (by decide),
   (toast_suppression_windows vclDefault rfl 0 0 1000).2.2 rfl⟩

end VencordPlugins.VoiceChannelLogger

/-! Claims C7 and C8: the AutoMuter unmute callback and the audio-level
buffer bound. -/

namespace VencordPlugins.AutoMuter

theorem bufferAfter_length_le (old : List Rat) (lvl : Rat)
    (h : old.length ≤ 10) : (bufferAfter old lvl).length ≤ 10 := by
  unfold bufferAfter
  by_cases hlen : 10 < (old ++ [lvl]).length
  · rw [if_pos hlen, List.length_tail]
    simp only [List.length_append, List.length_cons, List.length_nil] at hlen ⊢
    omega
  · rw [if_neg hlen]
    simp only [List.length_append, List.length_cons, List.length_nil] at hlen ⊢
    omega

theorem monitor_audioLevels_shape (s : AMSettings) (cur : Option String)
    (now : Rat) (ok : Bool) (st : AMState) (uid : String) (lvl : Rat)
    (he : s.enableNoiseDetection = true) (hcur : cur ≠ some uid) :
    (monitorAudioLevel s cur now ok st uid lvl).1.audioLevels =
      JsMap.set uid (bufferAfter ((JsMap.get uid st.audioLevels).getD []) lvl)
        st.audioLevels := by
  have hbeq : (cur == some uid) = false := by
    rw [beq_eq_false_iff_ne]
    exact hcur
  unfold monitorAudioLevel
  rw [he]
  simp only [Bool.not_true, hbeq]
  rw [if_neg (by simp)]
  rw [if_neg (by simp)]
  unfold bufferAfter
  dsimp only
  by_cases h10 :
      10 < (((JsMap.get uid st.audioLevels).getD []) ++ [lvl]).length
  · rw [if_pos h10]
    split
    · split
      · split <;> rfl
      · rfl
    · rfl
  · rw [if_neg h10]
    split
    · split
      · split <;> rfl
      · rfl
    · rfl

theorem monitor_state_self (s : AMSettings) (cur : Option String) (now : Rat)
    (ok : Bool) (st : AMState) (uid : String) (lvl : Rat)
    (hcur : cur = some uid) :
    (monitorAudioLevel s cur now ok st uid lvl).1 = st := by
  have hbeq : (cur == some uid) = true := by
    rw [beq_iff_eq]
    exact hcur
  unfold monitorAudioLevel
  by_cases he : (!s.enableNoiseDetection) = true
  · rw [if_pos he]
  · rw [if_neg he]
    rw [hbeq, if_pos rfl]

theorem monitor_state_disabled (s : AMSettings) (cur : Option String)
    (now : Rat) (ok : Bool) (st : AMState) (uid : String) (lvl : Rat)
    (he : s.enableNoiseDetection = false) :
    (monitorAudioLevel s cur now ok st uid lvl).1 = st := by
  unfold monitorAudioLevel
  rw [he]
  simp only [Bool.not_false]
  rw [if_pos trivial]

theorem runMonitorCalls_bounded :
    ∀ (calls : List MonitorCall) (st : AMState),
      (∀ u, audioLevelCount st u ≤ 10) →
      ∀ u, audioLevelCount (runMonitorCalls calls st) u ≤ 10
  | [], _, h, u => h u
  | (s, cur, now, ok, uid, lvl) :: rest, st, h, u => by
    refine runMonitorCalls_bounded rest _ (fun w => ?_) u
    by_cases he : s.enableNoiseDetection = true
    · by_cases hcur : cur = some uid
      · rw [audioLevelCount, monitor_state_self s cur now ok st uid lvl hcur]
        exact h w
      · rw [audioLevelCount,
          monitor_audioLevels_shape s cur now ok st uid lvl he hcur]
        by_cases hw : w = uid
        · subst hw
          rw [JsMap.get_set_self]
          simp only [Option.getD_some]
          exact bufferAfter_length_le _ lvl (h w)
        · rw [JsMap.get_set_ne uid w _ _ hw]
          exact h w
    · have hF : s.enableNoiseDetection = false := by
        revert he
        cases s.enableNoiseDetection <;> simp
      rw [audioLevelCount, monitor_state_disabled s cur now ok st uid lvl hF]
      exact h w

/-- C8: over every sequence of `monitorAudioLevel` calls from module load,
every user's retained audio-level history holds at most 10 samples; and
each call (with noise detection on, for a user other than the current one)
appends the new level and drops the oldest sample once the length exceeds
10. -/
theorem monitorAudioLevel_buffer_bounded :
    (∀ calls u, audioLevelCount (runMonitorCalls calls initialAMState) u ≤ 10) ∧
    (∀ s cur now ok st uid lvl, s.enableNoiseDetection = true →
      cur ≠ some uid →
      JsMap.get uid (monitorAudioLevel s cur now ok st uid lvl).1.audioLevels =
        some (bufferAfter ((JsMap.get uid st.audioLevels).getD []) lvl)) := by
  constructor
  · intro calls u
    refine runMonitorCalls_bounded calls initialAMState (fun w => ?_) u
    simp [audioLevelCount, initialAMState, JsMap.get]
  · intro s cur now ok st uid lvl he hcur
    rw [monitor_audioLevels_shape s cur now ok st uid lvl he hcur]
    exact JsMap.get_set_self uid _ st.audioLevels

/-- Witness for C8: one monitored sample for user `"u1"` from the fresh
state yields the one-sample buffer. -/
theorem monitorAudioLevel_buffer_bounded_witness :
    (amDefault.enableNoiseDetection = true ∧
      (none : Option String) ≠ some "u1") ∧
    JsMap.get "u1"
        (monitorAudioLevel amDefault none 0 true initialAMState "u1"
          50).1.audioLevels =
      some (bufferAfter ((JsMap.get "u1" initialAMState.audioLevels).getD [])
        50) :=
  ⟨⟨rfl, by decide⟩,
   monitorAudioLevel_buffer_bounded.2 amDefault none 0 true initialAMState
     "u1" 50 rfl (by decide)⟩

/-- C7 counterexample: the claim says nothing but clearing the timeout
prevents a scheduled auto-unmute from taking effect. AutoMuter never clears
these timeouts; instead the fired callback is guarded by `mutedUsers`, and
with the captured entry gone the callback has no effect even though the
timeout was never cleared. -/
theorem unmuteCallback_not_unconditional :
    ¬ (∀ (mutedUsers : List (String × Rat)) (userId : String)
        (unmuteTime : Rat),
        (unmuteCallback mutedUsers userId unmuteTime).2 = true) := by
  intro h
  exact absurd (h [] "u1" 5) (by decide)

/-- C7 (amended): the fired auto-unmute callback has its effect exactly when
`mutedUsers` still maps the captured user to the captured unmute time; in
particular, once `cleanupExpiredMutes` removes an expired entry, the
corresponding fired callback is a no-op. This state guard, not timeout
clearing, is the cancellation mechanism. -/
theorem unmuteCallback_state_guard :
    (∀ (mutedUsers : List (String × Rat)) (userId : String)
        (unmuteTime : Rat),
        ((unmuteCallback mutedUsers userId unmuteTime).2 = true ↔
          JsMap.get userId mutedUsers = some unmuteTime)) ∧
    (∀ (st : AMState) (userId : String) (unmuteTime now : Rat),
        JsMap.get userId st.mutedUsers = some unmuteTime →
        unmuteTime ≤ now →
        (unmuteCallback (cleanupExpiredMutes now st).mutedUsers userId
            unmuteTime).2 = false) := by
  constructor
  · intro m u t
    unfold unmuteCallback
    by_cases h : (JsMap.get u m == some t) = true
    · rw [if_pos h]
      exact ⟨fun _ => eq_of_beq h, fun _ => rfl⟩
    · rw [if_neg h]
      constructor
      · intro hf
        exact absurd hf (by simp)
      · intro hg
        exact absurd (by rw [hg]; exact beq_self_eq_true (some t)) h
  · intro st u t now hget hle
    have hne : JsMap.get u (cleanupExpiredMutes now st).mutedUsers ≠ some t := by
      intro hg
      unfold cleanupExpiredMutes JsMap.get at hg
      rw [Option.map_eq_some'] at hg
      obtain ⟨q, hfind, hq2⟩ := hg
      have hqmem := List.mem_of_find?_eq_some hfind
      have hqpred := (List.mem_filter.mp hqmem).2
      have hlt : now < q.2 := of_decide_eq_true hqpred
      rw [hq2] at hlt
      exact absurd hlt (not_lt.mpr hle)
    unfold unmuteCallback
    rw [if_neg (fun hb => hne (eq_of_beq hb))]

/-- Witness for C7: a mute of user `"u1"` until time 5 is cleaned up at time
9, and the fired callback for the original entry then has no effect. -/
theorem unmuteCallback_state_guard_witness :
    (JsMap.get "u1"
        ({ audioLevels := [], mutedUsers := [("u1", (5 : Rat))] } :
          AMState).mutedUsers = some 5 ∧
      (5 : Rat) ≤ 9) ∧
    (unmuteCallback
        (cleanupExpiredMutes 9
          { audioLevels := [], mutedUsers := [("u1", (5 : Rat))] }).mutedUsers
        "u1" 5).2 = false :=
  ⟨⟨by decide, by decide⟩,
   unmuteCallback_state_guard.2
     { audioLevels := [], mutedUsers := [("u1", (5 : Rat))] } "u1" 5 9
     (by decide) (by decide)⟩

end VencordPlugins.AutoMuter
